import Mathlib

/-!
# hotelReservation/cmd/user: seeding and lifecycle of the user store

A shallow embedding of `db.go` (`User`, `initializeDatabase`, `queryUser`) and of
`main.go` (`main`), followed by the properties proved about them.

Modelling conventions

* A Go `string` is a Lean `String`; `[]byte(s)` is the UTF-8 encoding of `s`.
* A byte is a `Fin 256`; the result of `sha256.Sum256` is a list of exactly 32 bytes.
* `sha256.Sum256`, the MongoDB driver, the JSON decoder, the tracing and registry
  clients and the server are collaborators outside the two source files.  The hash is
  a parameter; the other collaborators answer through an `Env`, which fixes for one run
  what each of their calls returns.
* Effects are recorded, in program order, in a trace of `Event`s carried by the `World`.
* A call ends in one of three ways (`Ctl`): it returns, it panics (deferred calls of
  the enclosing functions still run) or the process exits through `os.Exit` (nothing
  else runs).
-/

namespace HotelUser

/-! ## Strings, bytes and formatting -/

/-- One byte. -/
abbrev Byte := Fin 256

/-- The value of `sha256.Sum256`: a `[32]byte`. -/
structure Digest where
  bytes : List Byte
  size : bytes.length = 32

/-- Go conversion `[]byte(s)`: the UTF-8 bytes of the string. -/
def toBytes (s : String) : List Byte :=
  (s.data.flatMap String.utf8EncodeChar).map (fun b => b.val)

/-- Go `strconv.Itoa`: the decimal rendering of an `int`, with a leading minus sign for a
negative number. -/
def Itoa (i : Int) : String :=
  match i with
  | Int.ofNat n => Nat.repr n
  | Int.negSucc n => "-" ++ Nat.repr (n + 1)

/-- The digit table of package `fmt` for the lowercase verbs. -/
def ldigits : String := "0123456789abcdefx"

/-- Go `fmt`, `fmtSbx` on a byte array without flags: two digits per byte, high nibble
first, `buf = append(buf, digits[c>>4], digits[c&0xF])`. -/
def fmtSbx (b : List Byte) (digits : String) : String :=
  b.foldl (fun buf c =>
    (buf.push (digits.get ⟨c.val >>> 4⟩)).push (digits.get ⟨c.val &&& 0xF⟩)) ""

/-- The call `fmt.Sprintf("%x", sum)` on a `[32]byte`. -/
def sprintfHex (sum : Digest) : String :=
  fmtSbx sum.bytes ldigits

/-! ## Data model -/

/-- User represents a user in the database with a username and password. -/
structure User where
  Username : String
  Password : String
deriving DecidableEq, Repr

/-- What the program does to the outside, in program order. -/
inductive Event where
  /-- A line handed to a logger (package `log` in `db.go`, zerolog in `main.go`). -/
  | log (msg : String)
  /-- Text written by `fmt.Printf`. -/
  | stdout (text : String)
  /-- The call `os.Open(name)`. -/
  | fileOpen (name : String)
  /-- The call `jsonFile.Close()`. -/
  | fileClose
  /-- The call `mongo.Connect` with the given URI. -/
  | connect (uri : String)
  /-- The call `InsertMany` on collection `coll` of database `db`. -/
  | insertMany (db coll : String) (docs : List User)
  /-- The call `FindOne` with filter `username = key`. -/
  | findOne (db coll : String) (key : String)
  /-- The call `client.Disconnect`. -/
  | disconnect
  /-- The call `tracing.Init(service, addr)`. -/
  | tracingInit (service addr : String)
  /-- The call `registry.NewClient(addr)`. -/
  | registryNew (addr : String)
  /-- The call `srv.Run()` of a server built with the given port and address. -/
  | serverRun (port : Int) (ip : String)
deriving DecidableEq, Repr

/-- The state outside the program: the documents of collection `user` of database
`user-db`, and the trace so far. -/
structure World where
  users : List User
  trace : List Event
deriving DecidableEq, Repr

/-- How a call ends. -/
inductive Ctl (α : Type) where
  /-- Normal return. -/
  | ret (a : α)
  /-- A panic is unwinding the stack; deferred calls run. -/
  | panic (msg : String)
  /-- The process has ended through `os.Exit(code)`; deferred calls do not run. -/
  | exit (code : Nat)

/-- Record one event. -/
def World.emit (w : World) (e : Event) : World :=
  { w with trace := w.trace ++ [e] }

/-! ## `initializeDatabase`, lines 26-45: the test data -/

/-- Lines 31-34: `password := ""`, then `password += suffix` for `j = 0 .. 9`. -/
def passwordLoop (suffix : String) : String :=
  (List.range 10).foldl (fun password _ => password ++ suffix) ""

/-- Lines 29-40: the record built in iteration `i`. -/
def makeUser (sum256 : List Byte → Digest) (i : Nat) : User :=
  let suffix := Itoa i
  let password := passwordLoop suffix
  let sum := sum256 (toBytes password)
  { Username := "Cornell_" ++ suffix
    Password := sprintfHex sum }

/-- Line 44: `fmt.Printf("Username: %s, Password: %s\n", ...)`. -/
def userLine (user : User) : String :=
  "Username: " ++ user.Username ++ ", Password: " ++ user.Password ++ "\n"

/-- One iteration of the loop of line 28 on the pair (`newUsers`, world). -/
def seedStep (sum256 : List Byte → Digest) (st : List User × World) (i : Nat) :
    List User × World :=
  let user := makeUser sum256 i
  (st.1 ++ [user], st.2.emit (.stdout (userLine user)))

/-- Lines 26-45: `newUsers := []interface{}{}` and the loop `for i := 0; i <= 500; i++`. -/
def seedLoop (sum256 : List Byte → Digest) (w : World) : List User × World :=
  (List.range 501).foldl (seedStep sum256) ([], w)

/-! ## The collaborators -/

/-- The handle `*mongo.Client`: a client for the deployment at `uri`. -/
structure Client where
  uri : String
deriving DecidableEq, Repr

/-- A Go `map[string]string`; the nil map is the empty list. -/
abbrev Config := List (String × String)

/-- Go `m[key]` on a `map[string]string`: the zero value `""` for an absent key. -/
def Config.get (m : Config) (key : String) : String :=
  (m.lookup key).getD ""

/-- What the collaborators answer during one run.  An error is its message; `none` is
Go `nil`. -/
structure Env where
  /-- The error of `mongo.Connect`. -/
  connectErr : Option String
  /-- The error of `InsertMany`, with the number of documents written before it. -/
  insertErr : Option (Nat × String)
  /-- An error of `FindOne` other than "no documents". -/
  findErr : Option String
  /-- The error of `client.Disconnect`. -/
  disconnectErr : Option String
  /-- The call `os.Open("config.json")` followed by `ioutil.ReadAll`: the bytes read, or
  the error of `os.Open`. -/
  configFile : Except String String
  /-- Whether a non-empty input is syntactically valid JSON (`checkValid` of
  `encoding/json`). -/
  validJSON : String → Bool
  /-- Decoding of syntactically valid JSON into a `map[string]string`: the map afterwards
  and the error. -/
  decodeJSON : String → Config → Config × Option String
  /-- Go `strconv.Atoi` with the error dropped. -/
  atoi : String → Int
  /-- The exit code when `flag.Parse` ends the process (`ExitOnError`). -/
  flagExit : Option Nat
  /-- The value of `-jaegeraddr` on the command line. -/
  jaegerFlag : Option String
  /-- The value of `-consuladdr` on the command line. -/
  consulFlag : Option String
  /-- The error of `tracing.Init`. -/
  tracingErr : Option String
  /-- The error of `registry.NewClient`. -/
  registryErr : Option String
  /-- The error that `srv.Run()` returns when it returns. -/
  runErr : Option String

/-- Go `json.Unmarshal(data, &v)`: the input is checked first, and on a syntax error
(which includes the empty input) `v` is left as it was. -/
def Unmarshal (env : Env) (data : String) (v : Config) : Config × Option String :=
  if data = "" then (v, some "unexpected end of JSON input")
  else if env.validJSON data then env.decodeJSON data v
  else (v, some "invalid character")

/-- The call `collection.InsertMany(ctx, docs)`: the documents are appended in order; on
an error only the documents written before it are in the collection. -/
def InsertMany (env : Env) (db coll : String) (docs : List User) (w : World) :
    Option String × World :=
  let w := w.emit (.insertMany db coll docs)
  match env.insertErr with
  | some (k, err) => (some err, { w with users := w.users ++ docs.take k })
  | none => (none, { w with users := w.users ++ docs })

/-- The call `collection.FindOne(ctx, bson.M{"username": username}).Decode(&user)`: the
first document whose `username` field equals the key, `ErrNoDocuments` when there is
none. -/
def FindOne (env : Env) (db coll : String) (username : String) (w : World) :
    Except String User × World :=
  let w := w.emit (.findOne db coll username)
  match env.findErr with
  | some err => (.error err, w)
  | none =>
    match w.users.find? (fun u => u.Username == username) with
    | some user => (.ok user, w)
    | none => (.error "mongo: no documents in result", w)

/-! ## `db.go` -/

/-- Lines 65-70: the cleanup function that `initializeDatabase` returns. -/
def mongoClose (env : Env) (_client : Client) (w : World) : Ctl Unit × World :=
  let w := w.emit .disconnect
  match env.disconnectErr with
  | some err =>
    -- log.Fatalf
    (.exit 1, w.emit (.log ("Failed to disconnect from MongoDB: " ++ err)))
  | none => (.ret (), w.emit (.log "Successfully disconnected from MongoDB"))

/-- Lines 23-71.  initializeDatabase initializes the MongoDB connection, inserts test
data, and returns the client along with a cleanup function to disconnect from the
database. -/
def initializeDatabase (sum256 : List Byte → Digest) (env : Env) (url : String)
    (w : World) : Ctl (Client × (World → Ctl Unit × World)) × World :=
  let w := w.emit (.log "Generating test data...")
  let (newUsers, w) := seedLoop sum256 w
  let uri := "mongodb://" ++ url
  let w := w.emit (.log ("Attempting connection to " ++ uri))
  let w := w.emit (.connect uri)
  match env.connectErr with
  | some err =>
    -- log.Panicf
    let s := "Failed to connect to MongoDB: " ++ err
    (.panic s, w.emit (.log s))
  | none =>
    let client : Client := { uri := uri }
    let w := w.emit (.log "Successfully connected to MongoDB")
    match InsertMany env "user-db" "user" newUsers w with
    | (some err, w) =>
      -- log.Fatalf
      (.exit 1, w.emit (.log ("Failed to insert test data into user DB: " ++ err)))
    | (none, w) =>
      let w := w.emit (.log "Successfully inserted test data into user DB")
      (.ret (client, mongoClose env client), w)

/-- The verb `%+v` on a `User`. -/
def userPlusV (user : User) : String :=
  "\x7bUsername:" ++ user.Username ++ " Password:" ++ user.Password ++ "\x7d"

/-- Lines 74-82.  queryUser queries and prints the user with the specified username from
the database. -/
def queryUser (env : Env) (_client : Client) (username : String) (w : World) :
    Ctl Unit × World :=
  match FindOne env "user-db" "user" username w with
  | (.error err, w) =>
    -- log.Fatalf
    (.exit 1, w.emit (.log ("Failed to find user: " ++ err)))
  | (.ok user, w) =>
    (.ret (), w.emit (.stdout ("Found user: " ++ userPlusV user ++ "\n")))

/-! ## `main.go` -/

/-- The deferred call `jsonFile.Close()`; its result is dropped. -/
def jsonFileClose (w : World) : Ctl Unit × World :=
  (.ret (), w.emit .fileClose)

/-- The end of a function whose body ended as given: unless the process has exited, the
deferred calls run, last deferred first; a deferred call that exits ends the process, one
that panics replaces the panic in flight. -/
def runDeferred : List (World → Ctl Unit × World) → Ctl Unit × World → Ctl Unit × World
  | [], r => r
  | d :: ds, (c, w) =>
    match c with
    | .exit code => (.exit code, w)
    | _ =>
      match d w with
      | (.ret _, w) => runDeferred ds (c, w)
      | (.panic s, w) => runDeferred ds (.panic s, w)
      | (.exit code, w) => (.exit code, w)

/-- Lines 41-76 of `main`: what follows `defer mongoClose()`. -/
def mainServe (env : Env) (result : Config) (mongoClient : Client) (w : World) :
    Ctl Unit × World :=
  match queryUser env mongoClient "Cornell_0" w with
  | (.exit code, w) => (.exit code, w)
  | (.panic s, w) => (.panic s, w)
  | (.ret _, w) =>
    let servPort := env.atoi (result.get "UserPort")
    let servIP := result.get "UserIP"
    match env.flagExit with
    | some code => (.exit code, w)
    | none =>
      let jaegerAddr := env.jaegerFlag.getD (result.get "jaegerAddress")
      let consulAddr := env.consulFlag.getD (result.get "consulAddress")
      let w := w.emit (.log ("Initializing jaeger agent [service name: user | host: "
        ++ jaegerAddr ++ "]..."))
      let w := w.emit (.tracingInit "user" jaegerAddr)
      match env.tracingErr with
      | some err =>
        -- log.Panic()
        let s := "Got error while initializing jaeger agent: " ++ err
        (.panic s, w.emit (.log s))
      | none =>
        let w := w.emit (.log "Jaeger agent initialized")
        let w := w.emit (.log ("Initializing consul agent [host: " ++ consulAddr ++ "]..."))
        let w := w.emit (.registryNew consulAddr)
        match env.registryErr with
        | some err =>
          -- log.Panic()
          let s := "Got error while initializing consul agent: " ++ err
          (.panic s, w.emit (.log s))
        | none =>
          let w := w.emit (.log "Consul agent initialized")
          let w := w.emit (.log "Starting server...")
          let w := w.emit (.serverRun servPort servIP)
          match env.runErr with
          | none =>
            -- the method call `.Error()` on a nil error
            (.panic "runtime error: invalid memory address or nil pointer dereference", w)
          | some err =>
            -- log.Fatal()
            (.exit 1, w.emit (.log err))

/-- Lines 24-35 of `main`: the configuration map `result` read from `config.json`.  The
errors of `os.Open`, `ioutil.ReadAll` and `json.Unmarshal` do not stop `main`; reading a
file that could not be opened yields no bytes. -/
def readConfig (env : Env) (w : World) : Config × World :=
  let w := w.emit (.log "Reading config...")
  let w := w.emit (.fileOpen "config.json")
  let w :=
    match env.configFile with
    | .error err => w.emit (.log ("Got error while reading config: " ++ err))
    | .ok _ => w
  -- defer jsonFile.Close()
  let byteValue :=
    match env.configFile with
    | .error _ => ""
    | .ok data => data
  -- var result map[string]string
  ((Unmarshal env byteValue []).1, w)

/-- Lines 37-76 of `main`, for the configuration map `result`; the end of `main` runs the
deferred calls. -/
def mainWith (sum256 : List Byte → Digest) (env : Env) (result : Config) (w : World) :
    Ctl Unit × World :=
  let w := w.emit (.log "Initializing DB connection...")
  match initializeDatabase sum256 env (result.get "UserMongoAddress") w with
  | (.exit code, w) => (.exit code, w)
  | (.panic s, w) => runDeferred [jsonFileClose] (.panic s, w)
  | (.ret (mongoClient, mongoClose), w) =>
    -- defer mongoClose()
    runDeferred [mongoClose, jsonFileClose] (mainServe env result mongoClient w)

/-- Lines 19-76.  The call `tune.Init()` and the set-up of the logger are left out. -/
def main (sum256 : List Byte → Digest) (env : Env) (w : World) : Ctl Unit × World :=
  let (result, w) := readConfig env w
  mainWith sum256 env result w

/-! ## Reading a trace -/

/-- The payloads of the bulk inserts of a trace, in order. -/
def inserts (t : List Event) : List (List User) :=
  t.filterMap fun e =>
    match e with
    | .insertMany _ _ docs => some docs
    | _ => none

/-- The URIs of the connection attempts of a trace, in order. -/
def connects (t : List Event) : List String :=
  t.filterMap fun e =>
    match e with
    | .connect uri => some uri
    | _ => none

/-- The lookups of a trace, in order: database, collection and key. -/
def finds (t : List Event) : List (String × String × String) :=
  t.filterMap fun e =>
    match e with
    | .findOne db coll key => some (db, coll, key)
    | _ => none

/-- The texts written to standard output, in order. -/
def printed (t : List Event) : List String :=
  t.filterMap fun e =>
    match e with
    | .stdout text => some text
    | _ => none

/-- The number of `Disconnect` calls of a trace. -/
def disconnects (t : List Event) : Nat :=
  t.count .disconnect

/-! ## The words of the specification -/

/-- The decimal string of a natural number: its base-10 digits, most significant first,
and `"0"` for zero. -/
def decimalString (n : Nat) : String :=
  if n = 0 then "0" else String.mk ((Nat.digits 10 n).reverse.map Nat.digitChar)

/-- The string `s` concatenated `k` times. -/
def repeatString (k : Nat) (s : String) : String :=
  String.join (List.replicate k s)

/-- The lowercase hexadecimal digit of a value below 16. -/
def hexDigit (d : Nat) : Char :=
  if d < 10 then Char.ofNat (48 + d) else Char.ofNat (87 + d)

/-- The lowercase hexadecimal rendering of a byte string: two digits per byte. -/
def hexLower (bytes : List Byte) : String :=
  String.mk (bytes.flatMap fun b => [hexDigit (b.val / 16), hexDigit (b.val % 16)])

/-- The number a string of decimal digits stands for. -/
def decimalValue (s : String) : Nat :=
  Nat.ofDigits 10 ((s.data.map fun c => c.toNat - 48).reverse)

/-! ## Concrete instances -/

/-- A stand-in for the hash in concrete instances: byte `k` of the digest is the sum of
the input bytes plus `k`, modulo 256. -/
def sampleSum (input : List Byte) : Digest where
  bytes := (List.range 32).map fun k => Fin.ofNat ((input.map Fin.val).sum + k)
  size := by simp

/-- A configuration with the five keys that `main` reads. -/
def sampleConfig : Config :=
  [("UserMongoAddress", "mongodb-user:27017"), ("UserPort", "8086"), ("UserIP", "0.0.0.0"),
    ("jaegerAddress", "jaeger:6831"), ("consulAddress", "consul:8500")]

/-- A string between double quotes. -/
def quoted (s : String) : String :=
  String.singleton (Char.ofNat 34) ++ s ++ String.singleton (Char.ofNat 34)

/-- The JSON object for a configuration whose keys and values need no escaping. -/
def renderJSON (m : Config) : String :=
  "\x7b" ++ ", ".intercalate (m.map fun kv => quoted kv.1 ++ ": " ++ quoted kv.2) ++ "\x7d"

/-- A run in which `config.json` holds `sampleConfig`, every collaborator succeeds, and
the server stops with an error. -/
def sampleEnv : Env where
  connectErr := none
  insertErr := none
  findErr := none
  disconnectErr := none
  configFile := .ok (renderJSON sampleConfig)
  validJSON := fun data => data == renderJSON sampleConfig
  decodeJSON := fun data v =>
    if data == renderJSON sampleConfig then (sampleConfig, none) else (v, some "not decoded")
  atoi := fun s => s.toInt?.getD 0
  flagExit := none
  jaegerFlag := none
  consulFlag := none
  tracingErr := none
  registryErr := none
  runErr := some "listener closed"

/-- The world before the first run: an empty collection and an empty trace. -/
def emptyWorld : World where
  users := []
  trace := []

/-! ## Traces used in the proofs -/

/-- The events of `initializeDatabase` up to and including the connection attempt. -/
def openingEvents (sum256 : List Byte → Digest) (url : String) : List Event :=
  [.log "Generating test data..."] ++
    ((List.range 501).map fun i => .stdout (userLine (makeUser sum256 i))) ++
    [.log ("Attempting connection to " ++ ("mongodb://" ++ url)), .connect ("mongodb://" ++ url)]

/-- The world in which `main` calls `queryUser` when the store was empty and the connection
and the insert succeeded. -/
def seededWorld (sum256 : List Byte → Digest) (env : Env) (w : World) : World where
  users := [] ++ (List.range 501).map (makeUser sum256)
  trace := ((readConfig env w).2.emit (.log "Initializing DB connection...")).trace ++
    openingEvents sum256 ((readConfig env w).1.get "UserMongoAddress") ++
    [.log "Successfully connected to MongoDB",
      .insertMany "user-db" "user" ((List.range 501).map (makeUser sum256)),
      .log "Successfully inserted test data into user DB"]

/-- The run of `sampleEnv` in which the lookup of `queryUser` fails. -/
def lookupFailsEnv : Env :=
  { sampleEnv with findErr := some "server selection timeout" }

/-- The run of `sampleEnv` in which `config.json` is missing; the URI without a host is
then refused. -/
def missingConfigEnv : Env :=
  { sampleEnv with
    configFile := .error "open config.json: no such file or directory"
    connectErr := some "error parsing uri: must have at least 1 host" }

/-- The run of `sampleEnv` in which `tracing.Init` fails. -/
def tracingFailsEnv : Env :=
  { sampleEnv with tracingErr := some "agent unreachable" }

/-! ## Lemmas -/

theorem toDigitsCore_eq_digits (f : Nat) : ∀ (n : Nat) (acc : List Char), n < f → 0 < n →
    Nat.toDigitsCore 10 f n acc = (Nat.digits 10 n).reverse.map Nat.digitChar ++ acc := by
  induction f with
  | zero => intro n acc h; omega
  | succ f ih =>
    intro n acc h hn
    rw [Nat.digits_def' (by decide) hn]
    by_cases h0 : n / 10 = 0
    · simp [Nat.toDigitsCore, h0]
    · have hlt : n / 10 < f := by omega
      have hpos : 0 < n / 10 := by omega
      simp [Nat.toDigitsCore, h0, ih (n / 10) _ hlt hpos]

theorem repr_eq_decimalString (n : Nat) : Nat.repr n = decimalString n := by
  unfold decimalString
  by_cases h : n = 0
  · subst h; decide
  · simp only [h, if_false]
    have := toDigitsCore_eq_digits (n + 1) n [] (by omega) (by omega)
    simp [Nat.repr, Nat.toDigits, this, List.asString]

theorem Itoa_natCast (n : Nat) : Itoa (n : Int) = decimalString n :=
  repr_eq_decimalString n

theorem digitChar_value : ∀ d : Fin 10, (Nat.digitChar d.val).toNat - 48 = d.val := by
  decide

theorem decimalValue_decimalString (n : Nat) : decimalValue (decimalString n) = n := by
  unfold decimalString decimalValue
  by_cases h : n = 0
  · subst h; decide
  · simp only [h, if_false, List.map_reverse, List.reverse_reverse, List.map_map]
    have hmap : (Nat.digits 10 n).map ((fun c : Char => c.toNat - 48) ∘ Nat.digitChar)
        = Nat.digits 10 n := by
      conv_rhs => rw [← List.map_id (Nat.digits 10 n)]
      apply List.map_congr_left
      intro d hd
      have hlt : d < 10 := Nat.digits_lt_base (by decide) hd
      exact digitChar_value ⟨d, hlt⟩
    rw [hmap, Nat.ofDigits_digits]

theorem decimalString_injective : Function.Injective decimalString := by
  intro a b h
  have := congrArg decimalValue h
  simpa [decimalValue_decimalString] using this

set_option maxRecDepth 100000 in
theorem ldigits_high : ∀ c : Byte, ldigits.get ⟨c.val >>> 4⟩ = hexDigit (c.val / 16) := by
  decide

set_option maxRecDepth 100000 in
theorem ldigits_low : ∀ c : Byte, ldigits.get ⟨c.val &&& 0xF⟩ = hexDigit (c.val % 16) := by
  decide

theorem hexDigit_mem : ∀ d : Fin 16, hexDigit d.val ∈ "0123456789abcdef".data := by
  decide

theorem fmtSbx_foldl (b : List Byte) : ∀ buf : String,
    b.foldl (fun buf c =>
      (buf.push (ldigits.get ⟨c.val >>> 4⟩)).push (ldigits.get ⟨c.val &&& 0xF⟩)) buf
    = String.mk (buf.data ++ b.flatMap fun c => [hexDigit (c.val / 16), hexDigit (c.val % 16)]) := by
  induction b with
  | nil => intro buf; simp
  | cons c cs ih =>
    intro buf
    rw [List.foldl_cons, ih]
    simp [ldigits_high, ldigits_low, String.push]

theorem sprintfHex_eq_hexLower (sum : Digest) : sprintfHex sum = hexLower sum.bytes := by
  simp [sprintfHex, fmtSbx, hexLower, fmtSbx_foldl]

theorem hexLower_length (bytes : List Byte) : (hexLower bytes).length = 2 * bytes.length := by
  induction bytes with
  | nil => rfl
  | cons b bs ih =>
    simp only [hexLower, String.length, List.flatMap_cons, List.length_append, List.length_cons,
      List.length_nil] at ih ⊢
    omega

theorem hexLower_chars (bytes : List Byte) :
    ∀ c ∈ (hexLower bytes).data, c ∈ "0123456789abcdef".data := by
  intro c hc
  simp only [hexLower, List.mem_flatMap, List.mem_cons, List.mem_singleton] at hc
  obtain ⟨b, -, hb⟩ := hc
  rcases hb with rfl | rfl | hb
  · exact hexDigit_mem ⟨b.val / 16, by omega⟩
  · exact hexDigit_mem ⟨b.val % 16, by omega⟩
  · simp at hb

theorem passwordLoop_eq (s : String) : passwordLoop s = repeatString 10 s := rfl

theorem toBytes_zeros : toBytes "0000000000" = List.replicate 10 48 := by decide

theorem seedLoop_foldl (sum256 : List Byte → Digest) (l : List Nat) :
    ∀ (us : List User) (w : World),
      l.foldl (seedStep sum256) (us, w) =
        (us ++ l.map (makeUser sum256),
          { w with trace := w.trace ++ l.map fun i => .stdout (userLine (makeUser sum256 i)) }) := by
  induction l with
  | nil => intro us w; simp
  | cons i is ih =>
    intro us w
    simp [List.foldl_cons, seedStep, ih, World.emit]

theorem seedLoop_eq (sum256 : List Byte → Digest) (w : World) :
    seedLoop sum256 w =
      ((List.range 501).map (makeUser sum256),
        { w with trace := w.trace ++
            (List.range 501).map fun i => .stdout (userLine (makeUser sum256 i)) }) := by
  simp [seedLoop, seedLoop_foldl]

theorem seedLoop_get (sum256 : List Byte → Digest) (w : World) (i : Nat) (h : i ≤ 500) :
    (seedLoop sum256 w).1[i]? = some (makeUser sum256 i) := by
  have hi : i < 501 := by omega
  simp [seedLoop_eq, List.getElem?_map, List.getElem?_range hi]

theorem inserts_append (a b : List Event) : inserts (a ++ b) = inserts a ++ inserts b := by
  simp [inserts, List.filterMap_append]

theorem connects_append (a b : List Event) : connects (a ++ b) = connects a ++ connects b := by
  simp [connects, List.filterMap_append]

theorem finds_append (a b : List Event) : finds (a ++ b) = finds a ++ finds b := by
  simp [finds, List.filterMap_append]

theorem printed_append (a b : List Event) : printed (a ++ b) = printed a ++ printed b := by
  simp [printed, List.filterMap_append]

theorem disconnects_append (a b : List Event) :
    disconnects (a ++ b) = disconnects a + disconnects b := by
  simp [disconnects, List.count_append]

theorem connects_nil : connects [] = [] := rfl

theorem connects_cons (e : Event) (t : List Event) :
    connects (e :: t) = (match e with | .connect uri => [uri] | _ => []) ++ connects t := by
  cases e <;> rfl

theorem disconnects_nil : disconnects [] = 0 := rfl

theorem disconnects_cons (e : Event) (t : List Event) :
    disconnects (e :: t) = (match e with | .disconnect => 1 | _ => 0) + disconnects t := by
  cases e <;> simp [disconnects, Nat.add_comm]

theorem inserts_stdout (l : List Nat) (f : Nat → String) :
    inserts (l.map fun i => Event.stdout (f i)) = [] := by
  induction l with
  | nil => rfl
  | cons i is ih => simp [inserts]

theorem connects_stdout (l : List Nat) (f : Nat → String) :
    connects (l.map fun i => Event.stdout (f i)) = [] := by
  induction l with
  | nil => rfl
  | cons i is ih => simp [connects]

theorem disconnects_stdout (l : List Nat) (f : Nat → String) :
    disconnects (l.map fun i => Event.stdout (f i)) = 0 := by
  induction l with
  | nil => rfl
  | cons i is ih => simpa [disconnects] using ih

theorem printed_stdout (l : List Nat) (f : Nat → String) :
    printed (l.map fun i => Event.stdout (f i)) = l.map f := by
  induction l with
  | nil => rfl
  | cons i is ih => simpa [printed] using ih

theorem initializeDatabase_connect_error (sum256 : List Byte → Digest) (env : Env)
    (url : String) (w : World) (err : String) (h : env.connectErr = some err) :
    initializeDatabase sum256 env url w =
      (.panic ("Failed to connect to MongoDB: " ++ err),
        { users := w.users
          trace := w.trace ++ openingEvents sum256 url ++
            [.log ("Failed to connect to MongoDB: " ++ err)] }) := by
  simp [initializeDatabase, seedLoop_eq, h, World.emit, openingEvents]

theorem initializeDatabase_insert_error (sum256 : List Byte → Digest) (env : Env)
    (url : String) (w : World) (k : Nat) (err : String)
    (hc : env.connectErr = none) (h : env.insertErr = some (k, err)) :
    initializeDatabase sum256 env url w =
      (.exit 1,
        { users := w.users ++ ((List.range 501).map (makeUser sum256)).take k
          trace := w.trace ++ openingEvents sum256 url ++
            [.log "Successfully connected to MongoDB",
              .insertMany "user-db" "user" ((List.range 501).map (makeUser sum256)),
              .log ("Failed to insert test data into user DB: " ++ err)] }) := by
  simp [initializeDatabase, seedLoop_eq, hc, h, World.emit, openingEvents, InsertMany]

theorem initializeDatabase_ok (sum256 : List Byte → Digest) (env : Env)
    (url : String) (w : World)
    (hc : env.connectErr = none) (h : env.insertErr = none) :
    initializeDatabase sum256 env url w =
      (.ret ({ uri := "mongodb://" ++ url }, mongoClose env { uri := "mongodb://" ++ url }),
        { users := w.users ++ (List.range 501).map (makeUser sum256)
          trace := w.trace ++ openingEvents sum256 url ++
            [.log "Successfully connected to MongoDB",
              .insertMany "user-db" "user" ((List.range 501).map (makeUser sum256)),
              .log "Successfully inserted test data into user DB"] }) := by
  simp [initializeDatabase, seedLoop_eq, hc, h, World.emit, openingEvents, InsertMany]

theorem inserts_openingEvents (sum256 : List Byte → Digest) (url : String) :
    inserts (openingEvents sum256 url) = [] := by
  simp only [openingEvents, inserts_append, inserts_stdout]
  simp [inserts]

theorem connects_openingEvents (sum256 : List Byte → Digest) (url : String) :
    connects (openingEvents sum256 url) = ["mongodb://" ++ url] := by
  simp only [openingEvents, connects_append, connects_stdout]
  simp [connects]

theorem disconnects_openingEvents (sum256 : List Byte → Digest) (url : String) :
    disconnects (openingEvents sum256 url) = 0 := by
  simp only [openingEvents, disconnects_append, disconnects_stdout]
  simp [disconnects]

theorem printed_openingEvents (sum256 : List Byte → Digest) (url : String) :
    printed (openingEvents sum256 url) = (List.range 501).map fun i => userLine (makeUser sum256 i) := by
  simp only [openingEvents, printed_append, printed_stdout]
  simp [printed]

theorem makeUser_username (sum256 : List Byte → Digest) (i : Nat) :
    (makeUser sum256 i).Username = "Cornell_" ++ decimalString i := by
  simp [makeUser, Itoa_natCast]

theorem makeUser_password (sum256 : List Byte → Digest) (i : Nat) :
    (makeUser sum256 i).Password =
      hexLower (sum256 (toBytes (repeatString 10 (decimalString i)))).bytes := by
  simp [makeUser, Itoa_natCast, passwordLoop_eq, sprintfHex_eq_hexLower]

theorem append_left_cancel (p a b : String) (h : p ++ a = p ++ b) : a = b := by
  have hd := congrArg String.data h
  simp only [String.data_append] at hd
  exact String.ext (List.append_cancel_left hd)

theorem initializeDatabase_inserts (sum256 : List Byte → Digest) (env : Env) (url : String)
    (w : World) (hc : env.connectErr = none) :
    inserts (initializeDatabase sum256 env url w).2.trace =
      inserts w.trace ++ [(List.range 501).map (makeUser sum256)] := by
  cases hi : env.insertErr with
  | none =>
    rw [initializeDatabase_ok sum256 env url w hc hi]
    simp only [inserts_append, inserts_openingEvents]
    simp [inserts]
  | some p =>
    obtain ⟨k, err⟩ := p
    rw [initializeDatabase_insert_error sum256 env url w k err hc hi]
    simp only [inserts_append, inserts_openingEvents]
    simp [inserts]

/-- C1. For every index `i` from 0 to 500, the `Password` of the record that the loop of
`initializeDatabase` generates for `i` is the lowercase hexadecimal rendering of the
SHA-256 digest of the bytes of the decimal string of `i` concatenated 10 times; the hash
is any function from byte strings to 32-byte digests. -/
theorem password_is_hex_of_digest (sum256 : List Byte → Digest) (w : World) (i : Nat)
    (h : i ≤ 500) :
    ((seedLoop sum256 w).1[i]?).map User.Password =
      some (hexLower (sum256 (toBytes (repeatString 10 (decimalString i)))).bytes) := by
  rw [seedLoop_get sum256 w i h, Option.map_some', makeUser_password]

theorem password_is_hex_of_digest_witness :
    42 ≤ 500 ∧
    ((seedLoop sampleSum emptyWorld).1[42]?).map User.Password =
      some (hexLower (sampleSum (toBytes (repeatString 10 (decimalString 42)))).bytes) :=
  ⟨by decide, password_is_hex_of_digest sampleSum emptyWorld 42 (by decide)⟩

/-- C2. When the connection succeeds, `initializeDatabase` issues exactly one bulk insert;
its payload is the list built by the loop, it has exactly 501 records, and for every
position `i` from 0 to 500 the record at position `i` has `Username` equal to `"Cornell_"`
followed by the decimal string of `i`. -/
theorem single_bulk_insert_of_501 (sum256 : List Byte → Digest) (env : Env) (url : String)
    (w : World) (hc : env.connectErr = none) :
    ∃ docs : List User,
      inserts (initializeDatabase sum256 env url w).2.trace = inserts w.trace ++ [docs] ∧
      docs = (seedLoop sum256 w).1 ∧
      docs.length = 501 ∧
      ∀ i, i ≤ 500 → (docs[i]?).map User.Username = some ("Cornell_" ++ decimalString i) := by
  refine ⟨(List.range 501).map (makeUser sum256),
    initializeDatabase_inserts sum256 env url w hc, ?_, by simp, ?_⟩
  · simp [seedLoop_eq]
  · intro i hi
    have hlt : i < 501 := by omega
    simp [List.getElem?_map, List.getElem?_range hlt, makeUser_username]

theorem single_bulk_insert_of_501_witness :
    sampleEnv.connectErr = none ∧
    ∃ docs : List User,
      inserts (initializeDatabase sampleSum sampleEnv "mongodb-user:27017" emptyWorld).2.trace
        = inserts emptyWorld.trace ++ [docs] ∧
      docs = (seedLoop sampleSum emptyWorld).1 ∧
      docs.length = 501 ∧
      ∀ i, i ≤ 500 → (docs[i]?).map User.Username = some ("Cornell_" ++ decimalString i) :=
  ⟨rfl, single_bulk_insert_of_501 sampleSum sampleEnv "mongodb-user:27017" emptyWorld rfl⟩

/-- C3. The usernames generated by `initializeDatabase` are pairwise distinct: for two
different indices `i` and `j` from 0 to 500 the records at positions `i` and `j` exist and
their `Username` fields differ. -/
theorem usernames_pairwise_distinct (sum256 : List Byte → Digest) (w : World) (i j : Nat)
    (hi : i ≤ 500) (hj : j ≤ 500) (hij : i ≠ j) :
    ∃ ui uj : User,
      (seedLoop sum256 w).1[i]? = some ui ∧ (seedLoop sum256 w).1[j]? = some uj ∧
      ui.Username ≠ uj.Username := by
  refine ⟨makeUser sum256 i, makeUser sum256 j, seedLoop_get sum256 w i hi,
    seedLoop_get sum256 w j hj, ?_⟩
  rw [makeUser_username, makeUser_username]
  intro h
  exact hij (decimalString_injective (append_left_cancel _ _ _ h))

theorem usernames_pairwise_distinct_witness :
    1 ≤ 500 ∧ 10 ≤ 500 ∧ 1 ≠ 10 ∧
    ∃ ui uj : User,
      (seedLoop sampleSum emptyWorld).1[1]? = some ui ∧
      (seedLoop sampleSum emptyWorld).1[10]? = some uj ∧
      ui.Username ≠ uj.Username :=
  ⟨by decide, by decide, by decide,
    usernames_pairwise_distinct sampleSum emptyWorld 1 10 (by decide) (by decide) (by decide)⟩

/-- C4. For every index from 0 to 500 and every hash with 32-byte digests, the `Password`
of the generated record has length exactly 64 and each of its characters is one of `0-9`
or `a-f`. -/
theorem password_is_64_hex_chars (sum256 : List Byte → Digest) (w : World) (i : Nat)
    (h : i ≤ 500) :
    ∃ u : User, (seedLoop sum256 w).1[i]? = some u ∧
      u.Password.length = 64 ∧
      ∀ c ∈ u.Password.data, c ∈ "0123456789abcdef".data := by
  refine ⟨makeUser sum256 i, seedLoop_get sum256 w i h, ?_, ?_⟩
  · rw [makeUser_password, hexLower_length, Digest.size]
  · rw [makeUser_password]
    exact hexLower_chars _

theorem password_is_64_hex_chars_witness :
    500 ≤ 500 ∧
    ∃ u : User, (seedLoop sampleSum emptyWorld).1[500]? = some u ∧
      u.Password.length = 64 ∧
      ∀ c ∈ u.Password.data, c ∈ "0123456789abcdef".data :=
  ⟨by decide, password_is_64_hex_chars sampleSum emptyWorld 500 (by decide)⟩

theorem makeUser_zero_username (sum256 : List Byte → Digest) :
    (makeUser sum256 0).Username = "Cornell_0" := by
  rw [makeUser_username]; decide

theorem find_cornell_0 (sum256 : List Byte → Digest) :
    ((List.range 501).map (makeUser sum256)).find? (fun u => u.Username == "Cornell_0")
      = some (makeUser sum256 0) := by
  rw [List.range_succ_eq_map, List.map_cons, List.find?_cons]
  simp [makeUser_zero_username]

theorem FindOne_seeded (sum256 : List Byte → Digest) (env : Env) (hf : env.findErr = none)
    (t : List Event) :
    FindOne env "user-db" "user" "Cornell_0"
        { users := [] ++ (List.range 501).map (makeUser sum256), trace := t } =
      (.ok (makeUser sum256 0),
        { users := [] ++ (List.range 501).map (makeUser sum256)
          trace := t ++ [.findOne "user-db" "user" "Cornell_0"] }) := by
  unfold FindOne
  simp only [World.emit, hf, List.nil_append]
  rw [find_cornell_0]

theorem initializeDatabase_printed (sum256 : List Byte → Digest) (env : Env) (url : String)
    (w : World) :
    printed (initializeDatabase sum256 env url w).2.trace =
      printed w.trace ++ (List.range 501).map fun i => userLine (makeUser sum256 i) := by
  cases hc : env.connectErr with
  | some err =>
    rw [initializeDatabase_connect_error sum256 env url w err hc]
    simp only [printed_append, printed_openingEvents]
    simp [printed]
  | none =>
    cases hi : env.insertErr with
    | none =>
      rw [initializeDatabase_ok sum256 env url w hc hi]
      simp only [printed_append, printed_openingEvents]
      simp [printed]
    | some p =>
      obtain ⟨k, err⟩ := p
      rw [initializeDatabase_insert_error sum256 env url w k err hc hi]
      simp only [printed_append, printed_openingEvents]
      simp [printed]

theorem initializeDatabase_connects (sum256 : List Byte → Digest) (env : Env) (url : String)
    (w : World) :
    connects (initializeDatabase sum256 env url w).2.trace =
      connects w.trace ++ ["mongodb://" ++ url] := by
  cases hc : env.connectErr with
  | some err =>
    rw [initializeDatabase_connect_error sum256 env url w err hc]
    simp only [connects_append, connects_openingEvents]
    simp [connects]
  | none =>
    cases hi : env.insertErr with
    | none =>
      rw [initializeDatabase_ok sum256 env url w hc hi]
      simp only [connects_append, connects_openingEvents]
      simp [connects]
    | some p =>
      obtain ⟨k, err⟩ := p
      rw [initializeDatabase_insert_error sum256 env url w k err hc hi]
      simp only [connects_append, connects_openingEvents]
      simp [connects]

/-- C5. Round trip: when `initializeDatabase` runs against an empty user collection and
the connection and the insert succeed, it returns, and `queryUser` with key `"Cornell_0"`
then finds and prints a record whose `Password` is the lowercase hexadecimal SHA-256 of the
bytes of `"0000000000"`; that record is the generated record at position 0. -/
theorem round_trip_cornell_0 (sum256 : List Byte → Digest) (env : Env) (url : String)
    (w : World) (hw : w.users = []) (hc : env.connectErr = none)
    (hi : env.insertErr = none) (hf : env.findErr = none) :
    ∃ (client : Client) (close : World → Ctl Unit × World) (w1 : World) (u : User),
      initializeDatabase sum256 env url w = (.ret (client, close), w1) ∧
      (FindOne env "user-db" "user" "Cornell_0" w1).1 = .ok u ∧
      queryUser env client "Cornell_0" w1 =
        (.ret (), (w1.emit (.findOne "user-db" "user" "Cornell_0")).emit
          (.stdout ("Found user: " ++ userPlusV u ++ "\n"))) ∧
      u.Username = "Cornell_0" ∧
      u.Password = hexLower (sum256 (toBytes "0000000000")).bytes ∧
      (seedLoop sum256 w).1[0]? = some u := by
  refine ⟨_, _, _, makeUser sum256 0, initializeDatabase_ok sum256 env url w hc hi,
    ?_, ?_, makeUser_zero_username sum256, ?_, seedLoop_get sum256 w 0 (by decide)⟩
  · rw [hw, FindOne_seeded sum256 env hf]
  · unfold queryUser
    rw [hw, FindOne_seeded sum256 env hf]
    simp [World.emit]
  · rw [makeUser_password]; rfl

theorem round_trip_cornell_0_witness :
    emptyWorld.users = [] ∧ sampleEnv.connectErr = none ∧ sampleEnv.insertErr = none ∧
    sampleEnv.findErr = none ∧
    ∃ (client : Client) (close : World → Ctl Unit × World) (w1 : World) (u : User),
      initializeDatabase sampleSum sampleEnv "mongodb-user:27017" emptyWorld
        = (.ret (client, close), w1) ∧
      (FindOne sampleEnv "user-db" "user" "Cornell_0" w1).1 = .ok u ∧
      queryUser sampleEnv client "Cornell_0" w1 =
        (.ret (), (w1.emit (.findOne "user-db" "user" "Cornell_0")).emit
          (.stdout ("Found user: " ++ userPlusV u ++ "\n"))) ∧
      u.Username = "Cornell_0" ∧
      u.Password = hexLower (sampleSum (toBytes "0000000000")).bytes ∧
      (seedLoop sampleSum emptyWorld).1[0]? = some u :=
  ⟨rfl, rfl, rfl, rfl,
    round_trip_cornell_0 sampleSum sampleEnv "mongodb-user:27017" emptyWorld rfl rfl rfl rfl⟩

/-- C6. Determinism as a two-run statement: for one hash, any two addresses, any two
behaviours of the collaborators and any two contents of the store, the record list built
by the loop is the same, the lines `initializeDatabase` prints for it are the same, and
every bulk insert that either run issues carries that same list. -/
theorem generated_records_deterministic (sum256 : List Byte → Digest) (env1 env2 : Env)
    (url1 url2 : String) (users1 users2 : List User) :
    (seedLoop sum256 { users := users1, trace := [] }).1 =
      (seedLoop sum256 { users := users2, trace := [] }).1 ∧
    printed (initializeDatabase sum256 env1 url1 { users := users1, trace := [] }).2.trace =
      printed (initializeDatabase sum256 env2 url2 { users := users2, trace := [] }).2.trace ∧
    (∀ docs ∈ inserts
        (initializeDatabase sum256 env1 url1 { users := users1, trace := [] }).2.trace,
      docs = (seedLoop sum256 { users := users2, trace := [] }).1) ∧
    (∀ docs ∈ inserts
        (initializeDatabase sum256 env2 url2 { users := users2, trace := [] }).2.trace,
      docs = (seedLoop sum256 { users := users1, trace := [] }).1) := by
  have key : ∀ (env : Env) (url : String) (us : List User),
      ∀ docs ∈ inserts (initializeDatabase sum256 env url { users := us, trace := [] }).2.trace,
        docs = (List.range 501).map (makeUser sum256) := by
    intro env url us docs hd
    cases hc : env.connectErr with
    | some err =>
      rw [initializeDatabase_connect_error sum256 env url _ err hc] at hd
      simp only [inserts_append, inserts_openingEvents] at hd
      simp [inserts] at hd
    | none =>
      rw [initializeDatabase_inserts sum256 env url _ hc] at hd
      simpa [inserts] using hd
  refine ⟨by simp [seedLoop_eq], ?_, ?_, ?_⟩
  · rw [initializeDatabase_printed, initializeDatabase_printed]
  · intro docs hd
    rw [key env1 url1 users1 docs hd]; simp [seedLoop_eq]
  · intro docs hd
    rw [key env2 url2 users2 docs hd]; simp [seedLoop_eq]

/-- C7. Startup failures of `initializeDatabase` are fatal.  The connection is attempted
exactly once.  If it fails the call panics and no insert is attempted; if the single
insert fails the process exits with status 1; the call returns, with the client and the
cleanup function, exactly when both succeed, and then the insert was issued once. -/
theorem startup_failures_are_fatal (sum256 : List Byte → Digest) (env : Env) (url : String)
    (w : World) :
    connects (initializeDatabase sum256 env url w).2.trace =
      connects w.trace ++ ["mongodb://" ++ url] ∧
    ((∃ r, (initializeDatabase sum256 env url w).1 = .ret r) ↔
      (env.connectErr = none ∧ env.insertErr = none)) ∧
    match env.connectErr, env.insertErr with
    | some err, _ =>
      (initializeDatabase sum256 env url w).1 = .panic ("Failed to connect to MongoDB: " ++ err) ∧
      inserts (initializeDatabase sum256 env url w).2.trace = inserts w.trace
    | none, some _ =>
      (initializeDatabase sum256 env url w).1 = .exit 1 ∧
      inserts (initializeDatabase sum256 env url w).2.trace =
        inserts w.trace ++ [(seedLoop sum256 w).1]
    | none, none =>
      (initializeDatabase sum256 env url w).1 =
        .ret ({ uri := "mongodb://" ++ url }, mongoClose env { uri := "mongodb://" ++ url }) ∧
      inserts (initializeDatabase sum256 env url w).2.trace =
        inserts w.trace ++ [(seedLoop sum256 w).1] := by
  refine ⟨initializeDatabase_connects sum256 env url w, ?_, ?_⟩
  · cases hc : env.connectErr with
    | some err =>
      rw [initializeDatabase_connect_error sum256 env url w err hc]
      simp
    | none =>
      cases hi : env.insertErr with
      | none =>
        rw [initializeDatabase_ok sum256 env url w hc hi]
        simp
      | some p =>
        obtain ⟨k, err⟩ := p
        rw [initializeDatabase_insert_error sum256 env url w k err hc hi]
        simp
  · cases hc : env.connectErr with
    | some err =>
      rw [initializeDatabase_connect_error sum256 env url w err hc]
      simp only [inserts_append, inserts_openingEvents]
      simp [inserts]
    | none =>
      cases hi : env.insertErr with
      | none =>
        simp only [initializeDatabase_inserts sum256 env url w hc, seedLoop_eq]
        rw [initializeDatabase_ok sum256 env url w hc hi]
        simp
      | some p =>
        obtain ⟨k, err⟩ := p
        simp only [initializeDatabase_inserts sum256 env url w hc, seedLoop_eq]
        rw [initializeDatabase_insert_error sum256 env url w k err hc hi]
        simp

/-- C9. `queryUser` ends the process (exit status 1) exactly when the lookup returns an
error, and returns normally exactly when the lookup returns a record; a lookup with no
matching record is an error.  In both cases it performs exactly one read, on collection
`user` of `user-db` with the given key, no insert, and leaves the documents of the
collection as they were. -/
theorem queryUser_fatal_iff_lookup_error (env : Env) (client : Client) (key : String)
    (w : World) :
    ((queryUser env client key w).1 = .exit 1 ↔
      ∃ err, (FindOne env "user-db" "user" key w).1 = .error err) ∧
    ((queryUser env client key w).1 = .ret () ↔
      ∃ u, (FindOne env "user-db" "user" key w).1 = .ok u) ∧
    ((∃ u, (FindOne env "user-db" "user" key w).1 = .ok u) ↔
      (env.findErr = none ∧ ∃ u ∈ w.users, u.Username = key)) ∧
    finds (queryUser env client key w).2.trace = finds w.trace ++ [("user-db", "user", key)] ∧
    inserts (queryUser env client key w).2.trace = inserts w.trace ∧
    (queryUser env client key w).2.users = w.users := by
  unfold queryUser FindOne
  cases hf : env.findErr with
  | some err =>
    simp [World.emit, finds_append, inserts_append, finds, inserts]
  | none =>
    cases hu : w.users.find? (fun u => u.Username == key) with
    | none =>
      have hno : ¬ ∃ u ∈ w.users, u.Username = key := by
        rintro ⟨u, hmem, hk⟩
        have := List.find?_eq_none.mp hu u hmem
        simp [hk] at this
      simp [World.emit, finds_append, inserts_append, finds, inserts, hu, hno]
    | some u =>
      have hyes : ∃ u ∈ w.users, u.Username = key :=
        ⟨u, List.mem_of_find?_eq_some hu, by simpa using List.find?_some hu⟩
      simp [World.emit, finds_append, inserts_append, finds, inserts, hu, hyes]

theorem readConfig_of_error (env : Env)
    (h : (∃ err, env.configFile = .error err) ∨
      ∃ data, env.configFile = .ok data ∧ (data = "" ∨ env.validJSON data = false))
    (w : World) : (readConfig env w).1 = [] := by
  rcases h with ⟨err, he⟩ | ⟨data, hd, hbad⟩
  · simp [readConfig, he, Unmarshal]
  · rcases hbad with rfl | hv
    · simp [readConfig, hd, Unmarshal]
    · by_cases hempty : data = ""
      · simp [readConfig, hd, Unmarshal, hempty]
      · simp [readConfig, hd, Unmarshal, hempty, hv]

theorem readConfig_connects (env : Env) (w : World) :
    connects (readConfig env w).2.trace = connects w.trace := by
  unfold readConfig
  cases env.configFile <;> simp [World.emit, connects_append, connects_cons, connects_nil]

theorem mongoClose_connects (env : Env) (client : Client) (w : World) :
    connects (mongoClose env client w).2.trace = connects w.trace := by
  unfold mongoClose
  cases env.disconnectErr <;> simp [World.emit, connects_append, connects_cons, connects_nil]

theorem jsonFileClose_connects (w : World) :
    connects (jsonFileClose w).2.trace = connects w.trace := by
  simp [jsonFileClose, World.emit, connects_append, connects]

theorem runDeferred_connects (ds : List (World → Ctl Unit × World))
    (hds : ∀ d ∈ ds, ∀ w, connects (d w).2.trace = connects w.trace) :
    ∀ r : Ctl Unit × World, connects (runDeferred ds r).2.trace = connects r.2.trace := by
  induction ds with
  | nil => intro r; rfl
  | cons d ds ih =>
    have ih2 := ih (fun d2 hd2 => hds d2 (List.mem_cons_of_mem _ hd2))
    have hd := hds d (List.mem_cons_self _ _)
    rintro ⟨c, w⟩
    cases c with
    | exit code => rfl
    | ret a =>
      simp only [runDeferred]
      have := hd w
      rcases hdw : d w with ⟨c2, w2⟩
      rw [hdw] at this
      cases c2 <;> simp [ih2, this]
    | panic s =>
      simp only [runDeferred]
      have := hd w
      rcases hdw : d w with ⟨c2, w2⟩
      rw [hdw] at this
      cases c2 <;> simp [ih2, this]

theorem queryUser_connects (env : Env) (client : Client) (key : String) (w : World) :
    connects (queryUser env client key w).2.trace = connects w.trace := by
  unfold queryUser FindOne
  cases env.findErr with
  | some err => simp [World.emit, connects_append, connects_cons, connects_nil]
  | none =>
    cases hu : w.users.find? (fun u => u.Username == key) <;>
      simp [World.emit, connects_append, connects_cons, connects_nil, hu]

theorem mainServe_connects (env : Env) (result : Config) (client : Client) (w : World) :
    connects (mainServe env result client w).2.trace = connects w.trace := by
  unfold mainServe
  have hq := queryUser_connects env client "Cornell_0" w
  rcases hqw : queryUser env client "Cornell_0" w with ⟨c, w1⟩
  rw [hqw] at hq
  cases c with
  | exit code => simpa using hq
  | panic s => simpa using hq
  | ret a =>
    simp only []
    cases env.flagExit with
    | some code => simpa using hq
    | none =>
      cases env.tracingErr with
      | some err => simp [World.emit, connects_append, connects_cons, connects_nil, hq]
      | none =>
        cases env.registryErr with
        | some err => simp [World.emit, connects_append, connects_cons, connects_nil, hq]
        | none =>
          cases env.runErr <;> simp [World.emit, connects_append, connects_cons, connects_nil, hq]

theorem main_connects (sum256 : List Byte → Digest) (env : Env) (w : World) :
    connects (main sum256 env w).2.trace =
      connects w.trace ++ ["mongodb://" ++ (readConfig env w).1.get "UserMongoAddress"] := by
  unfold main mainWith
  simp only []
  have hi := initializeDatabase_connects sum256 env ((readConfig env w).1.get "UserMongoAddress")
    ((readConfig env w).2.emit (.log "Initializing DB connection..."))
  have h0 : connects ((readConfig env w).2.emit (.log "Initializing DB connection...")).trace
      = connects w.trace := by
    simp [World.emit, connects_append, readConfig_connects, connects_cons, connects_nil]
  rw [h0] at hi
  rcases hr : initializeDatabase sum256 env ((readConfig env w).1.get "UserMongoAddress")
    ((readConfig env w).2.emit (.log "Initializing DB connection...")) with ⟨c, w1⟩
  rw [hr] at hi
  cases c with
  | exit code => simpa using hi
  | panic s =>
    simp only []
    rw [runDeferred_connects]
    · simpa using hi
    · intro d hd w2
      simp only [List.mem_singleton] at hd
      subst hd
      exact jsonFileClose_connects w2
  | ret r =>
    obtain ⟨client, close⟩ := r
    simp only []
    have hclose : close = mongoClose env { uri := "mongodb://" ++ (readConfig env w).1.get "UserMongoAddress" } := by
      cases hc : env.connectErr with
      | some err =>
        rw [initializeDatabase_connect_error sum256 env _ _ err hc] at hr
        simp at hr
      | none =>
        cases hins : env.insertErr with
        | some p =>
          obtain ⟨k, err⟩ := p
          rw [initializeDatabase_insert_error sum256 env _ _ k err hc hins] at hr
          simp at hr
        | none =>
          rw [initializeDatabase_ok sum256 env _ _ hc hins] at hr
          simp at hr
          exact hr.1.2.symm
    rw [runDeferred_connects]
    · rw [mainServe_connects]; simpa using hi
    · intro d hd w2
      simp only [List.mem_cons, List.mem_singleton, List.not_mem_nil, or_false] at hd
      rcases hd with rfl | rfl
      · rw [hclose]; exact mongoClose_connects _ _ w2
      · exact jsonFileClose_connects w2

/-- C10. Configuration errors are not fatal in `main`: when `config.json` cannot be opened,
or what was read is empty or not valid JSON, the configuration map stays the nil map, its
entry `UserMongoAddress` is the empty string, `main` goes on as it does for the nil map,
and it attempts exactly one connection, with URI `"mongodb://"`.  In general `initializeDatabase` attempts the
connection with `"mongodb://"` followed by its address argument. -/
theorem config_errors_not_fatal (sum256 : List Byte → Digest) (env : Env) (w : World)
    (hcfg : (∃ err, env.configFile = .error err) ∨
      ∃ data, env.configFile = .ok data ∧ (data = "" ∨ env.validJSON data = false)) :
    (readConfig env w).1 = [] ∧
    Config.get (readConfig env w).1 "UserMongoAddress" = "" ∧
    main sum256 env w = mainWith sum256 env [] (readConfig env w).2 ∧
    connects (main sum256 env w).2.trace = connects w.trace ++ ["mongodb://"] ∧
    ∀ (url : String) (w1 : World),
      connects (initializeDatabase sum256 env url w1).2.trace =
        connects w1.trace ++ ["mongodb://" ++ url] := by
  have h := readConfig_of_error env hcfg w
  refine ⟨h, ?_, ?_, ?_, fun url w1 => initializeDatabase_connects sum256 env url w1⟩
  · rw [h]; rfl
  · simp only [main, h]
  · rw [main_connects, h]; rfl

theorem config_errors_not_fatal_witness :
    ((∃ err, missingConfigEnv.configFile = .error err) ∨
      ∃ data, missingConfigEnv.configFile = .ok data ∧
        (data = "" ∨ missingConfigEnv.validJSON data = false)) ∧
    (readConfig missingConfigEnv emptyWorld).1 = [] ∧
    Config.get (readConfig missingConfigEnv emptyWorld).1 "UserMongoAddress" = "" ∧
    main sampleSum missingConfigEnv emptyWorld =
      mainWith sampleSum missingConfigEnv [] (readConfig missingConfigEnv emptyWorld).2 ∧
    connects (main sampleSum missingConfigEnv emptyWorld).2.trace =
      connects emptyWorld.trace ++ ["mongodb://"] ∧
    ∀ (url : String) (w1 : World),
      connects (initializeDatabase sampleSum missingConfigEnv url w1).2.trace =
        connects w1.trace ++ ["mongodb://" ++ url] :=
  ⟨Or.inl ⟨_, rfl⟩,
    config_errors_not_fatal sampleSum missingConfigEnv emptyWorld (Or.inl ⟨_, rfl⟩)⟩

theorem readConfig_users (env : Env) (w : World) : (readConfig env w).2.users = w.users := by
  unfold readConfig
  cases env.configFile <;> simp [World.emit]

theorem readConfig_disconnects (env : Env) (w : World) :
    disconnects (readConfig env w).2.trace = disconnects w.trace := by
  unfold readConfig
  cases env.configFile <;>
    simp [World.emit, disconnects_append, disconnects_cons, disconnects_nil]

theorem seededWorld_disconnects (sum256 : List Byte → Digest) (env : Env) (w : World) :
    disconnects (seededWorld sum256 env w).trace = disconnects w.trace := by
  simp [seededWorld, World.emit, disconnects_append, disconnects_cons, disconnects_nil,
    disconnects_openingEvents, readConfig_disconnects]

theorem main_of_seeded (sum256 : List Byte → Digest) (env : Env) (w : World)
    (hw : w.users = []) (hc : env.connectErr = none) (hi : env.insertErr = none) :
    main sum256 env w =
      runDeferred
        [mongoClose env { uri := "mongodb://" ++ (readConfig env w).1.get "UserMongoAddress" },
          jsonFileClose]
        (mainServe env (readConfig env w).1
          { uri := "mongodb://" ++ (readConfig env w).1.get "UserMongoAddress" }
          (seededWorld sum256 env w)) := by
  unfold main mainWith
  simp only []
  rw [initializeDatabase_ok sum256 env _ _ hc hi]
  simp only [seededWorld]
  have hu : ((readConfig env w).2.emit (.log "Initializing DB connection...")).users = [] := by
    simp [World.emit, readConfig_users, hw]
  rw [hu]

theorem mainServe_lookup_error (sum256 : List Byte → Digest) (env : Env) (w : World)
    (result : Config) (client : Client) (err : String) (hf : env.findErr = some err) :
    mainServe env result client (seededWorld sum256 env w) =
      (.exit 1, ((seededWorld sum256 env w).emit (.findOne "user-db" "user" "Cornell_0")).emit
        (.log ("Failed to find user: " ++ err))) := by
  simp [mainServe, queryUser, FindOne, hf, World.emit]

theorem mainServe_run_error (sum256 : List Byte → Digest) (env : Env) (w : World)
    (result : Config) (client : Client) (err : String)
    (hf : env.findErr = none) (hflag : env.flagExit = none) (ht : env.tracingErr = none)
    (hr : env.registryErr = none) (hrun : env.runErr = some err) :
    ∃ t, disconnects t = 0 ∧
      mainServe env result client (seededWorld sum256 env w) =
        (.exit 1, { users := (seededWorld sum256 env w).users
                    trace := (seededWorld sum256 env w).trace ++ t }) := by
  unfold mainServe queryUser
  simp only [seededWorld]
  rw [FindOne_seeded sum256 env hf]
  simp only [hflag, ht, hr, hrun, World.emit, List.append_assoc]
  refine ⟨_, ?_, rfl⟩
  simp [disconnects_append, disconnects_cons, disconnects_nil]

theorem mainServe_tracing_error (sum256 : List Byte → Digest) (env : Env) (w : World)
    (result : Config) (client : Client) (err : String)
    (hf : env.findErr = none) (hflag : env.flagExit = none)
    (ht : env.tracingErr = some err) :
    ∃ t, disconnects t = 0 ∧
      mainServe env result client (seededWorld sum256 env w) =
        (.panic ("Got error while initializing jaeger agent: " ++ err),
          { users := (seededWorld sum256 env w).users
            trace := (seededWorld sum256 env w).trace ++ t }) := by
  unfold mainServe queryUser
  simp only [seededWorld]
  rw [FindOne_seeded sum256 env hf]
  simp only [hflag, ht, World.emit, List.append_assoc]
  refine ⟨_, ?_, rfl⟩
  simp [disconnects_append, disconnects_cons, disconnects_nil]

theorem main_run_error (sum256 : List Byte → Digest) (env : Env) (w : World)
    (hw : w.users = []) (hc : env.connectErr = none) (hi : env.insertErr = none)
    (hf : env.findErr = none) (hflag : env.flagExit = none) (ht : env.tracingErr = none)
    (hr : env.registryErr = none) (err : String) (hrun : env.runErr = some err) :
    (main sum256 env w).1 = .exit 1 ∧
    disconnects (main sum256 env w).2.trace = disconnects w.trace := by
  rw [main_of_seeded sum256 env w hw hc hi]
  obtain ⟨t, ht0, hm⟩ := mainServe_run_error sum256 env w (readConfig env w).1
    { uri := "mongodb://" ++ (readConfig env w).1.get "UserMongoAddress" } err hf hflag ht hr hrun
  rw [hm]
  simp [runDeferred, disconnects_append, ht0, seededWorld_disconnects]

theorem main_lookup_error (sum256 : List Byte → Digest) (env : Env) (w : World)
    (hw : w.users = []) (hc : env.connectErr = none) (hi : env.insertErr = none)
    (err : String) (hf : env.findErr = some err) :
    (main sum256 env w).1 = .exit 1 ∧
    disconnects (main sum256 env w).2.trace = disconnects w.trace := by
  rw [main_of_seeded sum256 env w hw hc hi, mainServe_lookup_error sum256 env w _ _ err hf]
  simp [runDeferred, World.emit, disconnects_append, disconnects_cons, disconnects_nil,
    seededWorld_disconnects]

theorem main_tracing_error (sum256 : List Byte → Digest) (env : Env) (w : World)
    (hw : w.users = []) (hc : env.connectErr = none) (hi : env.insertErr = none)
    (hf : env.findErr = none) (hflag : env.flagExit = none) (err : String)
    (ht : env.tracingErr = some err) (hd : env.disconnectErr = none) :
    (main sum256 env w).1 = .panic ("Got error while initializing jaeger agent: " ++ err) ∧
    disconnects (main sum256 env w).2.trace = disconnects w.trace + 1 := by
  rw [main_of_seeded sum256 env w hw hc hi]
  obtain ⟨t, ht0, hm⟩ := mainServe_tracing_error sum256 env w (readConfig env w).1
    { uri := "mongodb://" ++ (readConfig env w).1.get "UserMongoAddress" } err hf hflag ht
  rw [hm]
  simp [runDeferred, mongoClose, jsonFileClose, hd, World.emit, disconnects_append,
    disconnects_cons, disconnects_nil, ht0, seededWorld_disconnects]

/-- C8, evaluated at three runs.  In the run `sampleEnv` the connection, the insert, the lookup and both
client set-ups succeed and `srv.Run()` returns an error: `main` ends through `os.Exit(1)`
and `Disconnect` is never called.  The same holds when the lookup of `queryUser` fails.
When `tracing.Init` fails instead, `main` panics and `Disconnect` is called once. -/
theorem teardown_skipped_on_exit :
    ((main sampleSum sampleEnv emptyWorld).1 = .exit 1 ∧
      disconnects (main sampleSum sampleEnv emptyWorld).2.trace = 0) ∧
    ((main sampleSum lookupFailsEnv emptyWorld).1 = .exit 1 ∧
      disconnects (main sampleSum lookupFailsEnv emptyWorld).2.trace = 0) ∧
    ((main sampleSum tracingFailsEnv emptyWorld).1 =
        .panic "Got error while initializing jaeger agent: agent unreachable" ∧
      disconnects (main sampleSum tracingFailsEnv emptyWorld).2.trace = 1) :=
  ⟨main_run_error sampleSum sampleEnv emptyWorld rfl rfl rfl rfl rfl rfl rfl _ rfl,
    main_lookup_error sampleSum lookupFailsEnv emptyWorld rfl rfl rfl _ rfl,
    main_tracing_error sampleSum tracingFailsEnv emptyWorld rfl rfl rfl rfl rfl _ rfl rfl⟩

end HotelUser
